import Mathlib

/-!
# Study Guide Generator — verification of the frontend (src/static/app.js)

A shallow embedding of the browser frontend `app.js`.  The program is pure
UI orchestration: a form-submission loop that issues sequential `/generate`
POST requests and renders the responses into "step cards", and a
selection/modal feature that issues `/get_component_details` POST requests.

DOM mutation is modelled by explicit state passing; `fetch` is modelled by
an environment (oracle) that supplies the outcome of each request; the
Markdown renderer `marked.parse` is treated as opaque (a card or modal
whose `innerHTML` was set to `marked.parse s` is recorded as
`.markdown s`).  Every request the code issues is logged in a trace.
-/

/-- The `API_ENDPOINTS` constant of app.js (lines 9-12). -/
structure Endpoints where
  GENERATE : String
  COMPONENT_DETAILS : String
  deriving DecidableEq

def API_ENDPOINTS : Endpoints :=
  { GENERATE := "/generate", COMPONENT_DETAILS := "/get_component_details" }

/-- The form-input bag collected in `handleFormSubmit` (app.js 373-380):
values of the `subject`, `currentLevel`, `timeAvailable`, `learningStyle`
and `goal` DOM fields, plus `this.ui.maxSteps`.  `maxSteps` is kept as the
number of loop iterations `for (let step = 0; step < maxSteps; step++)`
performs. -/
structure FormData where
  subject : String
  currentLevel : String
  timeAvailable : String
  learningStyle : String
  goal : String
  maxSteps : Nat
  deriving DecidableEq

/-- `this.maxSteps = document.getElementById('maxSteps')?.value || 1`
(app.js line 66): if the element is absent the optional chain yields
`undefined` and `|| 1` gives `1`; an empty value string is falsy and also
gives `1`; otherwise the string is kept and later used as a numeric loop
bound (JS coerces it; a non-numeric string makes the comparison false, so
the loop runs zero times, matching `toNat?.getD 0`). -/
def maxStepsOf (elemValue : Option String) : Nat :=
  match elemValue with
  | none => 1
  | some v => if v = "" then 1 else (v.toNat?).getD 0

/-- Body of a JSON POST issued by the code: either
`JSON.stringify({...formData, step, previousResponses})` (app.js 317) or
`JSON.stringify({component, subject})` (app.js 284-287). -/
inductive RequestBody where
  | generateBody (formData : FormData) (step : Nat)
      (previousResponses : List String)
  | detailsBody (component : String) (subject : String)
  deriving DecidableEq

/-- One outbound HTTP request as the code configures `fetch`. -/
structure HttpRequest where
  url : String
  method : String
  body : RequestBody
  deriving DecidableEq

/-- The `/generate` request issued by `APIService.generateStep`
(app.js 314-318). -/
def generateRequest (fd : FormData) (step : Nat)
    (previousResponses : List String) : HttpRequest :=
  { url := API_ENDPOINTS.GENERATE
    method := "POST"
    body := .generateBody fd step previousResponses }

/-- Outcome of one `/generate` fetch, as seen by `APIService.generateStep`:
the fetch (or the `response.json()` parse) may reject with a message; the
response may arrive with `ok = false` carrying an optional `data.error`
field; or it arrives `ok` with a `data.response` string. -/
inductive FetchOutcome where
  | networkError (msg : String)
  | httpError (errorField : Option String)
  | success (response : String)
  deriving DecidableEq

/-- `APIService.generateStep` (app.js 311-332): on a non-ok response it
throws `new Error(data.error || 'Network response was not ok')` (an empty
`data.error` string is falsy, hence the default); any thrown error is
re-thrown to the caller. -/
def generateStepResult : FetchOutcome → Except String String
  | .networkError msg => .error msg
  | .httpError errorField =>
      .error (match errorField with
        | some e => if e = "" then "Network response was not ok" else e
        | none => "Network response was not ok")
  | .success response => .ok response

/-- `innerHTML` of the `.step-content` div of a step card. -/
inductive StepContent where
  | empty
  | markdown (raw : String)
  | errorHtml (text : String)
  deriving DecidableEq

/-- One step card in the `#results` div (`UIComponents.createStepCard`,
app.js 84-100): the header number, the two loading indicators, and the
step-content div. -/
structure StepCard where
  stepNumber : Nat
  hasLoadingBar : Bool
  hasLoadingText : Bool
  content : StepContent
  deriving DecidableEq

/-- `UIComponents.createStepCard(stepNumber)` (app.js 84-100). -/
def createStepCard (stepNumber : Nat) : StepCard :=
  { stepNumber := stepNumber
    hasLoadingBar := true
    hasLoadingText := true
    content := .empty }

/-- `UIComponents.updateStepCard` (app.js 102-106): removes the loading
bar and loading text and sets the content to `marked.parse content`. -/
def updateStepCard (card : StepCard) (content : String) : StepCard :=
  { card with
    hasLoadingBar := false
    hasLoadingText := false
    content := .markdown content }

/-- `UIComponents.showError` (app.js 108-112): sets the step-content
`innerHTML` to the red "Error generating content: ${error}" div (the
loading indicators are not removed on this path). -/
def showError (card : StepCard) (error : String) : StepCard :=
  { card with content := .errorHtml ("Error generating content: " ++ error) }

/-- The state `handleFormSubmit` manipulates: the cards appended to the
`#results` div, `this.state.previousResponses`, and (ghost) the trace of
requests issued during the submission. -/
structure GenState where
  cards : List StepCard
  previousResponses : List String
  trace : List HttpRequest
  deriving DecidableEq

/-- Apply `f` to the last element of a list (the card that was just
appended with `resultsDiv.appendChild` is the one `updateStepCard` /
`showError` mutate). -/
def updateLast (f : α → α) : List α → List α
  | [] => []
  | [a] => [f a]
  | a :: b :: rest => a :: updateLast f (b :: rest)

/-- The body of the `for` loop of `handleFormSubmit` (app.js 390-407),
iterated: `n` iterations remain, `step` is the loop counter.  Each
iteration appends a fresh loading card, issues the `/generate` request
with the current `previousResponses`, and on success renders the response
into the card and pushes it onto `previousResponses`; on a thrown error it
writes the error string into the card and `break`s. -/
def runSteps (env : Nat → FetchOutcome) (fd : FormData) :
    Nat → Nat → GenState → GenState
  | 0, _, s => s
  | n + 1, step, s =>
      let s1 : GenState :=
        { s with
          cards := s.cards ++ [createStepCard (step + 1)]
          trace := s.trace ++ [generateRequest fd step s.previousResponses] }
      match generateStepResult (env step) with
      | .ok response =>
          runSteps env fd n (step + 1)
            { s1 with
              cards := updateLast (fun c => updateStepCard c response) s1.cards
              previousResponses := s1.previousResponses ++ [response] }
      | .error msg =>
          { s1 with cards := updateLast (fun c => showError c msg) s1.cards }

/-- `StudyGuideGenerator.handleFormSubmit` (app.js 369-414): clears the
results area (`resultsDiv.innerHTML = ''`), resets
`this.state.previousResponses = []`, then runs the step loop from
`step = 0` to `formData.maxSteps - 1`. -/
def handleFormSubmit (env : Nat → FetchOutcome) (fd : FormData)
    (prior : GenState) : GenState :=
  let cleared : GenState :=
    { prior with
      cards := []
      previousResponses := []
      trace := [] }
  runSteps env fd fd.maxSteps 0 cleared

/-! ## Selection, floating button and modal (SelectionHandler, UIState) -/

/-- `innerHTML` of the `#modalContent` div. -/
inductive ModalContent where
  | empty
  | loadingMsg
  | markdown (raw : String)
  | errorHtml (text : String)
  deriving DecidableEq

/-- The error text `handleExplanationRequest` writes into the modal on a
caught error (app.js 299-301). -/
def modalErrorText (message : String) : String :=
  "Error loading content: " ++ message

/-- Snapshot of `window.getSelection()` at the time a DOM event handler
runs: the raw `selection.toString()`, whether `rangeCount > 0`, whether
`findStepCard(range.commonAncestorContainer)` finds a `.step-card`
ancestor, and whether the range's bounding rectangle is non-degenerate. -/
structure SelInput where
  text : String
  hasRange : Bool
  inStepCard : Bool
  rectNonzero : Bool
  deriving DecidableEq

/-- The mutable state of `UIState` and `SelectionHandler`, together with
the modal's DOM state and (as `docButtons`) the identities of the
`.floating-button` elements currently attached to the document.  Button
elements are named by `Nat` identifiers minted from `nextId`.
`currentSubject` lives on `SelectionHandler` (app.js 120, 125-128). -/
structure SelState where
  isModalLoading : Bool
  floatingButton : Option Nat
  currentSelection : String
  currentSubject : String
  nextId : Nat
  docButtons : List Nat
  modalHidden : Bool
  modalTitle : String
  modalContent : ModalContent
  deriving DecidableEq

/-- The state right after `new StudyGuideGenerator()`: no button, empty
selection and subject, modal hidden (the `#modal` div carries the `hidden`
class in the HTML). -/
def initialSelState : SelState :=
  { isModalLoading := false
    floatingButton := none
    currentSelection := ""
    currentSubject := ""
    nextId := 0
    docButtons := []
    modalHidden := true
    modalTitle := ""
    modalContent := .empty }

/-- `UIState.setModalLoading` (app.js 23-30): records the flag (the
`loading` CSS class toggle follows the flag). -/
def setModalLoading (loading : Bool) (st : SelState) : SelState :=
  { st with isModalLoading := loading }

/-- `UIState.removeFloatingButton` (app.js 47-52): if a button is
tracked, `document.body.removeChild` detaches it and the field is
nulled. -/
def removeFloatingButton (st : SelState) : SelState :=
  match st.floatingButton with
  | none => st
  | some b =>
      { st with
        floatingButton := none
        docButtons := st.docButtons.erase b }

/-- `UIState.createFloatingButton` (app.js 32-45): returns the tracked
button if one exists; otherwise creates a fresh element, appends it to
`document.body` and tracks it. -/
def createFloatingButton (st : SelState) : Nat × SelState :=
  match st.floatingButton with
  | some b => (b, st)
  | none =>
      let b := st.nextId
      (b, { st with
            floatingButton := some b
            nextId := b + 1
            docButtons := st.docButtons ++ [b] })

/-- Replace the first occurrence of `a` in the list by `b` (the DOM
`node.replaceWith(other)`: `other` takes `node`'s place among its
parent's children; a no-op if `node` is detached). -/
def replaceFirst (xs : List Nat) (a b : Nat) : List Nat :=
  match xs with
  | [] => []
  | x :: rest => if x = a then b :: rest else x :: replaceFirst rest a b

/-- Drop leading whitespace characters. -/
def dropLeadingWs : List Char → List Char
  | [] => []
  | c :: cs => if c.isWhitespace then dropLeadingWs cs else c :: cs

/-- The JavaScript `String.prototype.trim()` applied to the selection
text: strips leading and trailing whitespace. -/
def jsTrim (s : String) : String :=
  String.mk ((dropLeadingWs ((dropLeadingWs s.data).reverse)).reverse)

/-- `SelectionHandler.handleSelectionChange` (app.js 178-200): an empty
trimmed selection removes the floating button; with no range the handler
returns; a selection outside any step card removes the button; otherwise
the trimmed text is stored as `currentSelection`. -/
def handleSelectionChange (sel : SelInput) (st : SelState) : SelState :=
  if jsTrim sel.text = "" then removeFloatingButton st
  else if ¬ sel.hasRange then st
  else if ¬ sel.inStepCard then removeFloatingButton st
  else { st with currentSelection := jsTrim sel.text }

/-- `SelectionHandler.updateFloatingButtonPosition` (app.js 202-249):
guarded by a stored `currentSelection`, a live range inside a step card
and a non-degenerate rectangle; then `createFloatingButton`, then
`button.replaceWith(button.cloneNode(true))` (the clone takes the
button's place in the document), then the original button is tracked and
re-appended to `document.body`, positioned and shown.  The click handler
added with `once: true` invokes `handleExplanationRequest`. -/
def updateFloatingButtonPosition (sel : SelInput) (st : SelState) :
    SelState :=
  if st.currentSelection = "" then st
  else if ¬ sel.hasRange then st
  else if ¬ sel.inStepCard then removeFloatingButton st
  else if ¬ sel.rectNonzero then st
  else
    let bst := createFloatingButton st
    let b := bst.1
    let st1 := bst.2
    let clone := st1.nextId
    let st2 : SelState :=
      { st1 with
        nextId := clone + 1
        docButtons := replaceFirst st1.docButtons b clone }
    { st2 with
      floatingButton := some b
      docButtons := st2.docButtons ++ [b] }

/-- The `mouseup` listener (app.js 137-147): ignored when the click
lands on the tracked floating button; otherwise, when the live selection
has non-empty trimmed text, the button is (re)positioned. -/
def onMouseup (sel : SelInput) (targetOnButton : Bool) (st : SelState) :
    SelState :=
  if st.floatingButton.isSome && targetOnButton then st
  else if jsTrim sel.text ≠ "" then updateFloatingButtonPosition sel st
  else st

/-- The two `mousedown` listeners (app.js 150-163), run in registration
order: the first removes the tracked button unless the press is on it;
the second removes it when a button is tracked and the press is
elsewhere. -/
def onMousedown (targetOnButton : Bool) (st : SelState) : SelState :=
  let st1 :=
    if st.floatingButton.isSome && targetOnButton then st
    else removeFloatingButton st
  if st1.floatingButton.isSome && !targetOnButton then
    removeFloatingButton st1
  else st1

/-- Outcome of the `/get_component_details` fetch as seen by
`handleExplanationRequest` (app.js 279-296): a rejected fetch (or a
failed `response.json()`), a non-ok response — which throws
`HTTP error! status: ${response.status}` before the body is read — or an
ok response with a `data.response` string. -/
inductive DetailOutcome where
  | networkError (msg : String)
  | httpError (status : Nat)
  | success (response : String)
  deriving DecidableEq

/-- The `error.message` that reaches the catch block of
`handleExplanationRequest` for a failed request. -/
def detailErrorMessage : DetailOutcome → Option String
  | .networkError msg => some msg
  | .httpError status => some ("HTTP error! status: " ++ toString status)
  | .success _ => none

/-- `SelectionHandler.handleExplanationRequest` (app.js 251-306).
Returns the new state and the list of requests issued.  Guards: missing
subject or selection, or a modal already loading, return without any
effect.  Otherwise the modal title is set to the selected text, the modal
content to the loading placeholder, the loading flag is set and the modal
shown; the POST to `/get_component_details` carries
`{component: selectedText, subject: currentSubject}`; on success the
response Markdown is rendered into the modal, on error the error text is;
the `finally` block clears the loading flag and removes the floating
button. -/
def handleExplanationRequest (env : DetailOutcome) (st : SelState) :
    SelState × List HttpRequest :=
  if st.currentSubject = "" ∨ st.currentSelection = "" then (st, [])
  else if st.isModalLoading then (st, [])
  else
    let selectedText := st.currentSelection
    let st1 : SelState :=
      { st with
        modalTitle := selectedText
        modalContent := .loadingMsg }
    let st2 := setModalLoading true st1
    let st3 : SelState := { st2 with modalHidden := false }
    let req : HttpRequest :=
      { url := "/get_component_details"
        method := "POST"
        body := .detailsBody selectedText st.currentSubject }
    let st4 : SelState :=
      match env with
      | .success response => { st3 with modalContent := .markdown response }
      | .networkError msg =>
          { st3 with modalContent := .errorHtml (modalErrorText msg) }
      | .httpError status =>
          { st3 with
            modalContent := .errorHtml (modalErrorText
              ("HTTP error! status: " ++ toString status)) }
    let st5 := setModalLoading false st4
    (removeFloatingButton st5, [req])

/-! ## Expected shapes of the generation loop's output -/

/-- The card for 1-based step number `n` after its response has been
rendered: `createStepCard` followed by `updateStepCard`. -/
def renderedCard (n : Nat) (response : String) : StepCard :=
  updateStepCard (createStepCard n) response

/-- The cards produced by `n` consecutive successful iterations starting
at loop counter `step`, with `resp k` the response of step `k`. -/
def expCards (resp : Nat → String) : Nat → Nat → List StepCard
  | 0, _ => []
  | n + 1, step => renderedCard (step + 1) (resp step) :: expCards resp n (step + 1)

/-- The responses accumulated by `n` consecutive successful iterations
starting at loop counter `step`. -/
def expResponses (resp : Nat → String) : Nat → Nat → List String
  | 0, _ => []
  | n + 1, step => resp step :: expResponses resp n (step + 1)

/-- The `/generate` requests issued by `n` consecutive successful
iterations starting at loop counter `step`, when `base` is the
`previousResponses` array at entry. -/
def expTrace (fd : FormData) (resp : Nat → String) :
    List String → Nat → Nat → List HttpRequest
  | _, 0, _ => []
  | base, n + 1, step =>
      generateRequest fd step base ::
        expTrace fd resp (base ++ [resp step]) n (step + 1)

/-- Sample form data for concrete evaluations. -/
def sampleFormData (n : Nat) : FormData :=
  { subject := "Algebra"
    currentLevel := "beginner"
    timeAvailable := "10"
    learningStyle := "visual"
    goal := "pass the exam"
    maxSteps := n }

/-- Sample all-success fetch environment. -/
def sampleEnv : Nat → FetchOutcome :=
  fun k => .success (String.append "content " (toString k))

/-- Sample selection state after a submission for subject `Algebra` and a
selection of the word `polynomial` inside a step card. -/
def sampleSelState : SelState :=
  { initialSelState with
    currentSubject := "Algebra"
    currentSelection := "polynomial" }

/-! ## Small helper lemmas -/

theorem updateLast_concat (f : α → α) (xs : List α) (a : α) :
    updateLast f (xs ++ [a]) = xs ++ [f a] := by
  induction xs with
  | nil => rfl
  | cons x xs ih =>
      cases xs with
      | nil => rfl
      | cons y ys => simpa [updateLast] using ih

theorem removeFloatingButton_floatingButton (st : SelState) :
    (removeFloatingButton st).floatingButton = none := by
  cases h : st.floatingButton <;> simp [removeFloatingButton, h]

/-! ## Claim theorems (easy claims) -/

/-- C6: the submission is transient — `handleFormSubmit` first clears the
results area and resets `previousResponses`, so its outcome does not
depend on any state left over from an earlier submission. -/
theorem C6_submission_transient (env : Nat → FetchOutcome) (fd : FormData)
    (p₁ p₂ : GenState) :
    handleFormSubmit env fd p₁ = handleFormSubmit env fd p₂ := rfl

/-- C9: `handleExplanationRequest` is a guarded no-op — with an empty
subject, an empty selection, or a modal request already loading, the state
is unchanged and no request is issued (hence at most one
`/get_component_details` request is in flight at a time). -/
theorem C9_explanation_guarded_noop (env : DetailOutcome) (st : SelState)
    (h : st.currentSubject = "" ∨ st.currentSelection = "" ∨
      st.isModalLoading = true) :
    handleExplanationRequest env st = (st, []) := by
  rcases h with h | h | h <;>
    simp [handleExplanationRequest, h]

/-- C9 witness: the guarded no-op at a concrete state with an empty
subject. -/
theorem C9_explanation_guarded_noop_witness :
    handleExplanationRequest (.success "x") initialSelState =
      (initialSelState, []) :=
  C9_explanation_guarded_noop (.success "x") initialSelState
    (Or.inl rfl)

/-- C4: with a non-empty subject and selection and no request already
loading, a click on the floating button opens the modal with the selected
text as title, issues exactly one POST to `/get_component_details` whose
body carries the selection as `component` and the submitted subject as
`subject`, and on success renders the response Markdown into the modal
content. -/
theorem C4_explanation_success (st : SelState) (r : String)
    (hsub : st.currentSubject ≠ "") (hsel : st.currentSelection ≠ "")
    (hload : st.isModalLoading = false) :
    (handleExplanationRequest (.success r) st).2 =
      [{ url := "/get_component_details"
         method := "POST"
         body := .detailsBody st.currentSelection st.currentSubject }] ∧
    (handleExplanationRequest (.success r) st).1.modalTitle =
      st.currentSelection ∧
    (handleExplanationRequest (.success r) st).1.modalHidden = false ∧
    (handleExplanationRequest (.success r) st).1.modalContent =
      .markdown r := by
  cases hb : st.floatingButton <;>
    simp [handleExplanationRequest, hsub, hsel, hload,
      setModalLoading, removeFloatingButton, hb]

/-- C4 witness: the success path evaluated at a concrete state. -/
theorem C4_explanation_success_witness :
    (handleExplanationRequest (.success "An expression") sampleSelState).2 =
      [{ url := "/get_component_details"
         method := "POST"
         body := .detailsBody "polynomial" "Algebra" }] ∧
    (handleExplanationRequest (.success "An expression")
        sampleSelState).1.modalTitle = "polynomial" ∧
    (handleExplanationRequest (.success "An expression")
        sampleSelState).1.modalHidden = false ∧
    (handleExplanationRequest (.success "An expression")
        sampleSelState).1.modalContent = .markdown "An expression" :=
  C4_explanation_success sampleSelState "An expression"
    (by decide) (by decide) (by decide)

/-- C5: on a failed `/get_component_details` request the modal content is
replaced by the "Error loading content: ..." string, and in every outcome
the loading flag is cleared and the floating button is removed once the
request completes. -/
theorem C5_explanation_failure_cleanup (env : DetailOutcome)
    (st : SelState)
    (hsub : st.currentSubject ≠ "") (hsel : st.currentSelection ≠ "")
    (hload : st.isModalLoading = false) :
    (∀ msg, detailErrorMessage env = some msg →
      (handleExplanationRequest env st).1.modalContent =
        .errorHtml ("Error loading content: " ++ msg)) ∧
    (handleExplanationRequest env st).1.isModalLoading = false ∧
    (handleExplanationRequest env st).1.floatingButton = none := by
  refine ⟨?_, ?_, ?_⟩
  · intro msg hmsg
    cases env with
    | networkError m =>
        cases hb : st.floatingButton <;>
          simp_all [handleExplanationRequest, detailErrorMessage,
            modalErrorText, hsub, hsel, hload, setModalLoading,
            removeFloatingButton]
    | httpError status =>
        cases hb : st.floatingButton <;>
          simp_all [handleExplanationRequest, detailErrorMessage,
            modalErrorText, hsub, hsel, hload, setModalLoading,
            removeFloatingButton]
    | success r => simp [detailErrorMessage] at hmsg
  · cases env <;> cases hb : st.floatingButton <;>
      simp [handleExplanationRequest, hsub, hsel, hload,
        setModalLoading, removeFloatingButton, hb]
  · cases env <;> cases hb : st.floatingButton <;>
      simp [handleExplanationRequest, hsub, hsel, hload,
        setModalLoading, removeFloatingButton, hb]

/-- C5 witness: a concrete failed request (HTTP 500) — error text shown,
loading flag cleared, floating button gone. -/
theorem C5_explanation_failure_cleanup_witness :
    (handleExplanationRequest (.httpError 500) sampleSelState).1.modalContent =
      .errorHtml ("Error loading content: " ++ "HTTP error! status: 500") ∧
    (handleExplanationRequest (.httpError 500)
        sampleSelState).1.isModalLoading = false ∧
    (handleExplanationRequest (.httpError 500)
        sampleSelState).1.floatingButton = none := by
  have h := C5_explanation_failure_cleanup (.httpError 500) sampleSelState
    (by decide) (by decide) (by decide)
  exact ⟨h.1 "HTTP error! status: 500" (by decide), h.2.1, h.2.2⟩

/-- C10: with no `maxSteps` element in the page (as in the provided HTML)
the step count defaults to 1, so a submission creates exactly one step
card and issues exactly one `/generate` request, with step index 0 and an
empty `previousResponses` array. -/
theorem C10_default_single_step (env : Nat → FetchOutcome) (fd : FormData)
    (prior : GenState) (h : fd.maxSteps = maxStepsOf none) :
    (handleFormSubmit env fd prior).cards.length = 1 ∧
    (handleFormSubmit env fd prior).trace = [generateRequest fd 0 []] := by
  have h1 : fd.maxSteps = 1 := h
  cases hg : generateStepResult (env 0) with
  | ok r => simp [handleFormSubmit, h1, runSteps, hg, updateLast]
  | error m => simp [handleFormSubmit, h1, runSteps, hg, updateLast]

/-- C10 witness: a concrete submission with the default step count. -/
theorem C10_default_single_step_witness :
    (handleFormSubmit sampleEnv (sampleFormData 1) ⟨[], [], []⟩).cards.length
        = 1 ∧
    (handleFormSubmit sampleEnv (sampleFormData 1) ⟨[], [], []⟩).trace =
      [generateRequest (sampleFormData 1) 0 []] :=
  C10_default_single_step sampleEnv (sampleFormData 1) ⟨[], [], []⟩ rfl

/-! ## The generation loop under an all-success environment -/

theorem runSteps_success (env : Nat → FetchOutcome) (fd : FormData)
    (resp : Nat → String) :
    ∀ (n step : Nat) (s : GenState),
    (∀ k, k < n → env (step + k) = .success (resp (step + k))) →
    runSteps env fd n step s =
      { cards := s.cards ++ expCards resp n step
        previousResponses :=
          s.previousResponses ++ expResponses resp n step
        trace := s.trace ++ expTrace fd resp s.previousResponses n step } := by
  intro n
  induction n with
  | zero =>
      intro step s h
      simp [runSteps, expCards, expResponses, expTrace]
  | succ n ih =>
      intro step s h
      have h0 : env step = .success (resp step) := by
        have := h 0 (Nat.succ_pos n)
        simpa using this
      have h' : ∀ k, k < n →
          env (step + 1 + k) = .success (resp (step + 1 + k)) := by
        intro k hk
        have e : step + (k + 1) = step + 1 + k := by omega
        have := h (k + 1) (by omega)
        rw [e] at this
        exact this
      rw [runSteps]
      simp only [h0, generateStepResult]
      rw [ih (step + 1) _ h']
      simp [updateLast_concat, expCards, expResponses, expTrace,
        renderedCard, List.append_assoc]

theorem expCards_eq_range (resp : Nat → String) :
    ∀ (n step : Nat), expCards resp n step =
      (List.range n).map (fun i => renderedCard (step + i + 1) (resp (step + i))) := by
  intro n
  induction n with
  | zero => intro step; simp [expCards]
  | succ n ih =>
      intro step
      rw [expCards, ih (step + 1), List.range_succ_eq_map]
      simp only [List.map_cons, List.map_map, Function.comp]
      have e : ∀ i, step + 1 + i = step + (i + 1) := by omega
      simp [e]

theorem expResponses_eq_range (resp : Nat → String) :
    ∀ (n step : Nat), expResponses resp n step =
      (List.range n).map (fun i => resp (step + i)) := by
  intro n
  induction n with
  | zero => intro step; simp [expResponses]
  | succ n ih =>
      intro step
      rw [expResponses, ih (step + 1), List.range_succ_eq_map]
      simp only [List.map_cons, List.map_map, Function.comp]
      have e : ∀ i, step + 1 + i = step + (i + 1) := by omega
      simp [e]

theorem expTrace_eq_range (fd : FormData) (resp : Nat → String) :
    ∀ (n step : Nat) (base : List String),
      expTrace fd resp base n step =
        (List.range n).map (fun i => generateRequest fd (step + i)
          (base ++ (List.range i).map (fun j => resp (step + j)))) := by
  intro n
  induction n with
  | zero => intro step base; simp [expTrace]
  | succ n ih =>
      intro step base
      rw [expTrace, ih (step + 1), List.range_succ_eq_map]
      simp only [List.map_cons, List.map_map, Function.comp]
      congr 1
      · simp
      · apply List.map_congr_left
        intro i _
        have e1 : step + 1 + i = step + (i + 1) := by omega
        rw [e1]
        congr 1
        rw [List.range_succ_eq_map]
        simp only [List.map_cons, List.map_map, Function.comp]
        have e2 : ∀ j, step + 1 + j = step + (j + 1) := by omega
        simp [e2]

/-- C1: a submission with `maxSteps = N` under an all-success environment
processes steps 0 through N−1 in order: the results area holds the N step
cards in step order, each with its loading indicators replaced by the
Markdown-rendered response; the trace holds exactly one `/generate` POST
per step, in step order, the request for step k carrying the form data,
the step index k and the responses of steps 0..k−1 (so each request is
issued only after every earlier response has arrived — the loop awaits
each fetch before the next iteration). -/
theorem C1_sequential_generation (env : Nat → FetchOutcome)
    (fd : FormData) (resp : Nat → String) (prior : GenState)
    (hsucc : ∀ k, k < fd.maxSteps → env k = .success (resp k)) :
    (handleFormSubmit env fd prior).cards =
      (List.range fd.maxSteps).map
        (fun k => renderedCard (k + 1) (resp k)) ∧
    (handleFormSubmit env fd prior).previousResponses =
      (List.range fd.maxSteps).map resp ∧
    (handleFormSubmit env fd prior).trace =
      (List.range fd.maxSteps).map
        (fun k => generateRequest fd k ((List.range k).map resp)) := by
  have h := runSteps_success env fd resp fd.maxSteps 0
    { cards := [], previousResponses := [], trace := [] }
    (by intro k hk; simpa using hsucc k hk)
  have hfs : handleFormSubmit env fd prior =
      { cards := expCards resp fd.maxSteps 0
        previousResponses := expResponses resp fd.maxSteps 0
        trace := expTrace fd resp [] fd.maxSteps 0 } := by
    unfold handleFormSubmit
    rw [h]
    rfl
  rw [hfs]
  refine ⟨?_, ?_, ?_⟩
  · simp [expCards_eq_range]
  · simp [expResponses_eq_range]
  · simp [expTrace_eq_range]

/-- C1 witness: two all-success steps at concrete inputs. -/
theorem C1_sequential_generation_witness :
    (handleFormSubmit sampleEnv (sampleFormData 2) ⟨[], [], []⟩).cards =
      (List.range 2).map (fun k =>
        renderedCard (k + 1) (String.append "content " (toString k))) ∧
    (handleFormSubmit sampleEnv (sampleFormData 2)
        ⟨[], [], []⟩).previousResponses =
      (List.range 2).map (fun k => String.append "content " (toString k)) ∧
    (handleFormSubmit sampleEnv (sampleFormData 2) ⟨[], [], []⟩).trace =
      (List.range 2).map (fun k => generateRequest (sampleFormData 2) k
        ((List.range k).map
          (fun j => String.append "content " (toString j)))) :=
  C1_sequential_generation sampleEnv (sampleFormData 2)
    (fun k => String.append "content " (toString k)) ⟨[], [], []⟩
    (fun _ _ => rfl)

/-! ## The generation loop when a step fails -/

theorem runSteps_fail (env : Nat → FetchOutcome) (fd : FormData)
    (resp : Nat → String) (msg : String) :
    ∀ (k n step : Nat) (s : GenState),
    (∀ j, j < k → env (step + j) = .success (resp (step + j))) →
    generateStepResult (env (step + k)) = .error msg →
    k < n →
    runSteps env fd n step s =
      { cards := s.cards ++ expCards resp k step ++
          [showError (createStepCard (step + k + 1)) msg]
        previousResponses :=
          s.previousResponses ++ expResponses resp k step
        trace := s.trace ++ expTrace fd resp s.previousResponses k step ++
          [generateRequest fd (step + k)
            (s.previousResponses ++ expResponses resp k step)] } := by
  intro k
  induction k with
  | zero =>
      intro n step s hsucc hfail hlt
      cases n with
      | zero => omega
      | succ m =>
          rw [runSteps]
          simp only [Nat.add_zero] at hfail
          simp [hfail, updateLast_concat, expCards, expResponses, expTrace]
  | succ k ih =>
      intro n step s hsucc hfail hlt
      cases n with
      | zero => omega
      | succ m =>
          have h0 : env step = .success (resp step) := by
            have := hsucc 0 (Nat.succ_pos k)
            simpa using this
          have hsucc' : ∀ j, j < k →
              env (step + 1 + j) = .success (resp (step + 1 + j)) := by
            intro j hj
            have e : step + (j + 1) = step + 1 + j := by omega
            have := hsucc (j + 1) (by omega)
            rw [e] at this
            exact this
          have hfail' :
              generateStepResult (env (step + 1 + k)) = .error msg := by
            have e : step + (k + 1) = step + 1 + k := by omega
            rw [e] at hfail
            exact hfail
          rw [runSteps]
          simp only [h0, generateStepResult]
          rw [ih m (step + 1) _ hsucc' hfail' (by omega)]
          have e1 : step + 1 + k = step + (k + 1) := by omega
          simp [updateLast_concat, expCards, expResponses, expTrace,
            renderedCard, List.append_assoc, e1]

/-- C3: if the `/generate` request of step k fails (after k successful
steps), the step-k card shows the "Error generating content: ..." string,
and the loop stops — the results area holds exactly k rendered cards plus
the one error card, `previousResponses` holds only the k earlier
responses (the failed step appends nothing), and the trace holds exactly
the k+1 requests for steps 0..k (none for any later step). -/
theorem C3_failure_stops_loop (env : Nat → FetchOutcome) (fd : FormData)
    (resp : Nat → String) (k : Nat) (msg : String) (prior : GenState)
    (hk : k < fd.maxSteps)
    (hsucc : ∀ j, j < k → env j = .success (resp j))
    (hfail : generateStepResult (env k) = .error msg) :
    (handleFormSubmit env fd prior).cards =
      (List.range k).map (fun i => renderedCard (i + 1) (resp i)) ++
        [showError (createStepCard (k + 1)) msg] ∧
    (handleFormSubmit env fd prior).previousResponses =
      (List.range k).map resp ∧
    (handleFormSubmit env fd prior).trace =
      (List.range (k + 1)).map
        (fun i => generateRequest fd i ((List.range i).map resp)) := by
  have h := runSteps_fail env fd resp msg k fd.maxSteps 0
    { cards := [], previousResponses := [], trace := [] }
    (by intro j hj; simpa using hsucc j hj)
    (by simpa using hfail) hk
  have hfs : handleFormSubmit env fd prior =
      { cards := expCards resp k 0 ++
          [showError (createStepCard (k + 1)) msg]
        previousResponses := expResponses resp k 0
        trace := expTrace fd resp [] k 0 ++
          [generateRequest fd k (expResponses resp k 0)] } := by
    unfold handleFormSubmit
    rw [h]
    simp
  rw [hfs]
  refine ⟨?_, ?_, ?_⟩
  · simp [expCards_eq_range]
  · simp [expResponses_eq_range]
  · rw [List.range_succ, List.map_append]
    simp [expTrace_eq_range, expResponses_eq_range]

/-- C3 witness: the first step succeeds and the second fails with an
HTTP error carrying `data.error = "quota exceeded"`. -/
theorem C3_failure_stops_loop_witness :
    (handleFormSubmit
        (fun j => if j = 0 then .success "content 0"
          else .httpError (some "quota exceeded"))
        (sampleFormData 3) ⟨[], [], []⟩).cards =
      (List.range 1).map (fun i => renderedCard (i + 1) "content 0") ++
        [showError (createStepCard 2) "quota exceeded"] ∧
    (handleFormSubmit
        (fun j => if j = 0 then .success "content 0"
          else .httpError (some "quota exceeded"))
        (sampleFormData 3) ⟨[], [], []⟩).previousResponses =
      (List.range 1).map (fun _ => "content 0") ∧
    (handleFormSubmit
        (fun j => if j = 0 then .success "content 0"
          else .httpError (some "quota exceeded"))
        (sampleFormData 3) ⟨[], [], []⟩).trace =
      (List.range 2).map (fun i => generateRequest (sampleFormData 3) i
        ((List.range i).map (fun _ => "content 0"))) :=
  C3_failure_stops_loop
    (fun j => if j = 0 then .success "content 0"
      else .httpError (some "quota exceeded"))
    (sampleFormData 3) (fun _ => "content 0") 1 "quota exceeded"
    ⟨[], [], []⟩ (by decide)
    (by intro j hj; interval_cases j; rfl)
    rfl

/-! ## Order of previousResponses inside the issued requests -/

theorem runSteps_trace_req (env : Nat → FetchOutcome) (fd : FormData) :
    ∀ (n step : Nat) (s : GenState),
    s.trace.length = step →
    s.previousResponses.length = step →
    (∀ i, i < s.trace.length →
      s.trace[i]? =
        some (generateRequest fd i (s.previousResponses.take i))) →
    ∀ i, i < (runSteps env fd n step s).trace.length →
      (runSteps env fd n step s).trace[i]? =
        some (generateRequest fd i
          ((runSteps env fd n step s).previousResponses.take i)) := by
  intro n
  induction n with
  | zero =>
      intro step s _ _ hinv i hi
      exact hinv i hi
  | succ n ih =>
      intro step s hlen1 hlen2 hinv
      rw [runSteps]
      cases hg : generateStepResult (env step) with
      | ok r =>
          dsimp only
          apply ih (step + 1)
          · simp [hlen1]
          · simp [hlen2]
          · intro i hi
            have hi' : i < step + 1 := by
              simpa [hlen1] using hi
            rcases Nat.lt_succ_iff_lt_or_eq.mp hi' with h | h
            · rw [List.getElem?_append_left (by omega)]
              rw [hinv i (by omega)]
              rw [List.take_append_of_le_length (by omega)]
            · have hidx : i = s.trace.length := by omega
              subst hidx
              rw [List.getElem?_concat_length]
              have ht : (s.previousResponses ++ [r]).take s.trace.length =
                  s.previousResponses := by
                rw [List.take_append_of_le_length (by omega)]
                rw [show s.trace.length = s.previousResponses.length from
                  by omega, List.take_length]
              rw [ht, h]
      | error msg =>
          dsimp only
          intro i hi
          have hi' : i < step + 1 := by
            simpa [hlen1] using hi
          rcases Nat.lt_succ_iff_lt_or_eq.mp hi' with h | h
          · rw [List.getElem?_append_left (by omega)]
            exact hinv i (by omega)
          · have hidx : i = s.trace.length := by omega
            subst hidx
            rw [List.getElem?_concat_length]
            have ht : s.previousResponses.take s.trace.length =
                s.previousResponses := by
              rw [show s.trace.length = s.previousResponses.length from
                by omega, List.take_length]
            rw [ht, h]

/-- C2: for every step, the request the submission issues for step i
carries as `previousResponses` exactly the responses of steps 0..i−1 in
step order — the i-th entry of the request trace is the `/generate`
request with step index i and body `previousResponses` equal to the first
i entries of the final response array (each successful step appends to
the end; nothing is reordered or removed during a submission). -/
theorem C2_previous_responses_order (env : Nat → FetchOutcome)
    (fd : FormData) (prior : GenState) (i : Nat)
    (h : i < (handleFormSubmit env fd prior).trace.length) :
    (handleFormSubmit env fd prior).trace[i]? =
      some (generateRequest fd i
        ((handleFormSubmit env fd prior).previousResponses.take i)) := by
  have hrun := runSteps_trace_req env fd fd.maxSteps 0
    { cards := [], previousResponses := [], trace := [] } rfl rfl
    (by intro j hj; simp at hj)
  exact hrun i h

/-- C2 witness: the second request of a two-step submission carries
exactly the first response. -/
theorem C2_previous_responses_order_witness :
    1 < (handleFormSubmit sampleEnv (sampleFormData 2)
        ⟨[], [], []⟩).trace.length ∧
    (handleFormSubmit sampleEnv (sampleFormData 2) ⟨[], [], []⟩).trace[1]? =
      some (generateRequest (sampleFormData 2) 1
        ((handleFormSubmit sampleEnv (sampleFormData 2)
          ⟨[], [], []⟩).previousResponses.take 1)) :=
  ⟨by decide,
    C2_previous_responses_order sampleEnv (sampleFormData 2) ⟨[], [], []⟩ 1
      (by decide)⟩

/-! ## The two endpoints -/

theorem runSteps_trace_mem (env : Nat → FetchOutcome) (fd : FormData) :
    ∀ (n step : Nat) (s : GenState) (r : HttpRequest),
    r ∈ (runSteps env fd n step s).trace →
    r ∈ s.trace ∨ (r.method = "POST" ∧ r.url = "/generate") := by
  intro n
  induction n with
  | zero =>
      intro step s r hr
      exact Or.inl hr
  | succ n ih =>
      intro step s r hr
      rw [runSteps] at hr
      cases hg : generateStepResult (env step) with
      | ok resp =>
          rw [hg] at hr
          dsimp only at hr
          rcases ih (step + 1) _ r hr with h | h
          · rcases List.mem_append.mp h with h' | h'
            · exact Or.inl h'
            · right
              rw [List.mem_singleton.mp h']
              exact ⟨rfl, rfl⟩
          · exact Or.inr h
      | error msg =>
          rw [hg] at hr
          dsimp only at hr
          rcases List.mem_append.mp hr with h' | h'
          · exact Or.inl h'
          · right
            rw [List.mem_singleton.mp h']
            exact ⟨rfl, rfl⟩

theorem explanation_trace_mem (env : DetailOutcome) (st : SelState)
    (r : HttpRequest) (h : r ∈ (handleExplanationRequest env st).2) :
    r.method = "POST" ∧ r.url = "/get_component_details" := by
  by_cases h1 : st.currentSubject = "" ∨ st.currentSelection = ""
  · simp [handleExplanationRequest, h1] at h
  · by_cases h2 : st.isModalLoading
    · simp [handleExplanationRequest, h1, h2] at h
    · simp [handleExplanationRequest, h1, h2] at h
      rw [h]
      exact ⟨rfl, rfl⟩

/-- C7: every HTTP request the application issues — whether from the
submission loop or from the explanation feature — is a POST to one of
exactly the two endpoints `/generate` and `/get_component_details`. -/
theorem C7_only_two_endpoints (env : Nat → FetchOutcome) (fd : FormData)
    (prior : GenState) (denv : DetailOutcome) (sst : SelState)
    (r : HttpRequest)
    (h : r ∈ (handleFormSubmit env fd prior).trace ∨
      r ∈ (handleExplanationRequest denv sst).2) :
    r.method = "POST" ∧
    (r.url = "/generate" ∨ r.url = "/get_component_details") := by
  cases h with
  | inl h =>
      have hmem : r ∈ (runSteps env fd fd.maxSteps 0
          { cards := [], previousResponses := [], trace := [] }).trace := h
      rcases runSteps_trace_mem env fd fd.maxSteps 0 _ r hmem with h' | h'
      · simp at h'
      · exact ⟨h'.1, Or.inl h'.2⟩
  | inr h =>
      have h' := explanation_trace_mem denv sst r h
      exact ⟨h'.1, Or.inr h'.2⟩

/-- C7 witness: the request issued by a concrete explanation request is a
POST to one of the two endpoints. -/
theorem C7_only_two_endpoints_witness :
    ({ url := "/get_component_details"
       method := "POST"
       body := .detailsBody "polynomial" "Algebra" } : HttpRequest).method
        = "POST" ∧
    (({ url := "/get_component_details"
        method := "POST"
        body := .detailsBody "polynomial" "Algebra" } : HttpRequest).url
          = "/generate" ∨
      ({ url := "/get_component_details"
         method := "POST"
         body := .detailsBody "polynomial" "Algebra" } : HttpRequest).url
          = "/get_component_details") :=
  C7_only_two_endpoints sampleEnv (sampleFormData 1) ⟨[], [], []⟩
    (.success "x") sampleSelState _
    (Or.inr (by decide))

/-! ## The floating button -/

/-- C8 counterexample: the claim "at most one floating-button element is
attached to the document at any time" is false.  After a single valid
in-card selection followed by `mouseup`, `updateFloatingButtonPosition`
runs `button.replaceWith(button.cloneNode(true))` — which inserts the
clone into the document — and then re-appends the original button, so two
`.floating-button` elements are attached at once. -/
theorem C8_at_most_one_button_counterexample :
    ¬ ((onMouseup ⟨"term", true, true, true⟩ false
        (handleSelectionChange ⟨"term", true, true, true⟩
          initialSelState)).docButtons.length ≤ 1) := by decide

/-- C8 amended: at most one floating button is *tracked* by the UI state
at any time (untracked clone elements can remain attached to the
document), and the tracked button is transient: it is removed whenever
the selection is cleared (`selectionchange` with empty trimmed text),
whenever the mouse is pressed down outside the button, and after an
explanation request completes; it is newly shown only when the stored
selection is non-empty and the live selection has a range lying inside a
step card with a non-degenerate rectangle. -/
theorem C8_tracked_button_transient (st : SelState) (sel : SelInput)
    (env : DetailOutcome) :
    ((onMousedown false st).floatingButton = none) ∧
    (jsTrim sel.text = "" →
      (handleSelectionChange sel st).floatingButton = none) ∧
    (st.currentSubject ≠ "" → st.currentSelection ≠ "" →
      st.isModalLoading = false →
      (handleExplanationRequest env st).1.floatingButton = none) ∧
    (st.floatingButton = none →
      (updateFloatingButtonPosition sel st).floatingButton.isSome = true →
      st.currentSelection ≠ "" ∧ sel.hasRange = true ∧
        sel.inStepCard = true ∧ sel.rectNonzero = true) := by
  refine ⟨?_, ?_, ?_, ?_⟩
  · simp [onMousedown, removeFloatingButton_floatingButton]
  · intro h
    simp [handleSelectionChange, h, removeFloatingButton_floatingButton]
  · intro hsub hsel hload
    cases env <;> cases hb : st.floatingButton <;>
      simp [handleExplanationRequest, hsub, hsel, hload,
        setModalLoading, removeFloatingButton, hb]
  · intro hfb hsome
    unfold updateFloatingButtonPosition at hsome
    split_ifs at hsome with h1 h2 h3 h4 <;>
      first
        | exact ⟨h1, by simpa using h2, by simpa using h3,
            by simpa using h4⟩
        | (rw [hfb] at hsome; simp at hsome)
        | (rw [removeFloatingButton_floatingButton] at hsome
           simp at hsome)

/-- C8 amended witness: the removal clauses evaluated at concrete
states. -/
theorem C8_tracked_button_transient_witness :
    (onMousedown false sampleSelState).floatingButton = none ∧
    (handleSelectionChange ⟨" ", true, true, true⟩
        sampleSelState).floatingButton = none ∧
    (handleExplanationRequest (.success "x")
        sampleSelState).1.floatingButton = none :=
  ⟨(C8_tracked_button_transient sampleSelState ⟨" ", true, true, true⟩
      (.success "x")).1,
    (C8_tracked_button_transient sampleSelState ⟨" ", true, true, true⟩
      (.success "x")).2.1 (by decide),
    (C8_tracked_button_transient sampleSelState ⟨" ", true, true, true⟩
      (.success "x")).2.2.1 (by decide) (by decide) (by decide)⟩
